import Mathlib

/- Verification of the fin-detection Azure function app (function_app.py).

   The file gives a shallow embedding of the app's control flow.  Pure
   string manipulation (path splitting, tag-table lookup, output-path
   construction) is translated directly, implemented over the character
   lists underlying `String` so that every definition evaluates; the
   external collaborators (blob storage, the HTTP detector, the PIL image
   decoder, the iptcinfo3 parser) are abstracted as oracles carried in a
   `World` record, each of which either succeeds or raises an exception
   with a textual message, exactly the points at which the Python code can
   raise. -/

namespace AzureFin

instance {ε α : Type} [DecidableEq ε] [DecidableEq α] : DecidableEq (Except ε α)
  | .ok a, .ok b =>
    if h : a = b then .isTrue (by rw [h]) else .isFalse (by simp [h])
  | .ok _, .error _ => .isFalse (by simp)
  | .error _, .ok _ => .isFalse (by simp)
  | .error a, .error b =>
    if h : a = b then .isTrue (by rw [h]) else .isFalse (by simp [h])

/-- Python truthiness test `not s` for an optional string: true when the
value is `None` or the empty string. -/
def pyFalsy : Option String → Bool
  | none => true
  | some s => s = ""

/-- Whether the character list `needle` is an initial segment of `hay`. -/
def chStarts : List Char → List Char → Bool
  | [], _ => true
  | _ :: _, [] => false
  | a :: as, b :: bs => a = b && chStarts as bs

/-- Whether `needle` occurs contiguously inside `hay` (Python `in`). -/
def chContains (needle : List Char) : List Char → Bool
  | [] => chStarts needle []
  | b :: bs => chStarts needle (b :: bs) || chContains needle bs

/-- Python `needle in haystack` on strings: substring containment. -/
def pyIn (needle haystack : String) : Bool :=
  chContains needle.data haystack.data

/-- Split a character list at every occurrence of the separator, keeping
empty groups (Python `str.split` with an explicit separator). -/
def splitChar (sep : Char) : List Char → List (List Char)
  | [] => [[]]
  | c :: rest =>
    if c = sep then [] :: splitChar sep rest
    else
      match splitChar sep rest with
      | [] => [[c]]
      | g :: gs => (c :: g) :: gs

/-- Python `s.split(sep)` for a one-character separator. -/
def pySplit (sep : Char) (s : String) : List String :=
  (splitChar sep s.data).map fun l => ⟨l⟩

/-- Decimal value of a digit list. -/
def digitsVal (l : List Char) : Nat :=
  l.foldl (fun a c => 10 * a + (c.toNat - 48)) 0

/-- Parse an optionally signed run of decimal digits. -/
def pyIntCore : List Char → Option Int
  | [] => none
  | '+' :: rest =>
    if rest ≠ [] && rest.all Char.isDigit then some (digitsVal rest) else none
  | '-' :: rest =>
    if rest ≠ [] && rest.all Char.isDigit then some (-(digitsVal rest : Int)) else none
  | l =>
    if l.all Char.isDigit then some (digitsVal l) else none

/-- Strip leading and trailing whitespace. -/
def pyTrim (l : List Char) : List Char :=
  ((l.dropWhile Char.isWhitespace).reverse.dropWhile Char.isWhitespace).reverse

/-- Python `int(s)` on its usual decimal inputs: surrounding whitespace is
ignored, one leading sign is allowed, anything else raises ValueError. -/
def pyInt (s : String) : Except String Int :=
  match pyIntCore (pyTrim s.data) with
  | some i => .ok i
  | none => .error ("invalid literal for int: " ++ String.mk (pyTrim s.data))

/-- Python list indexing `l[i]`: negative indices count from the end,
anything outside the range raises IndexError.  (`getD` with a dummy
default is only read under the range guard.) -/
def pyIndex (l : List String) (i : Int) : Except String String :=
  let j : Int := if i < 0 then i + l.length else i
  if 0 ≤ j ∧ j < l.length then
    .ok (l.getD j.toNat "")
  else
    .error "list index out of range"

/-- `os.path.basename` for POSIX paths: everything after the last "/". -/
def pyBasename (s : String) : String :=
  (pySplit '/' s).getLastD ""

/-- Python `s.split(".")[0]`: the string truncated at its first ".". -/
def pyStem (s : String) : String :=
  (pySplit '.' s).headD ""

/-- Whether a string starts with the character '/'. -/
def strStartsSlash (s : String) : Bool :=
  match s.data with
  | [] => false
  | c :: _ => c = '/'

/-- Whether a string ends with the character '/'. -/
def strEndsSlash (s : String) : Bool :=
  match s.data.getLast? with
  | none => false
  | some c => c = '/'

/-- Two-argument `os.path.join` for POSIX paths: an absolute second
component replaces the first, a first component that is empty or ends in
"/" is concatenated directly, otherwise a "/" separator is inserted. -/
def pyJoin (a b : String) : String :=
  if strStartsSlash b then b
  else if a = "" || strEndsSlash a then a ++ b
  else a ++ "/" ++ b

/-- Outcome of `info[tag].decode("utf-8")` for one IPTC tag: the lookup
can fail (raise), the stored bytes can fail to decode as UTF-8, or a
string value is produced. -/
inductive TagVal where
  | missing
  | undecodable
  | value (s : String)
deriving DecidableEq

/-- The parsed IPTC metadata object, abstracted by its tag contents. -/
def Meta := Int → TagVal

/-- The `IPTC_TAGS` table of function_app.py, in declaration order (a
Python dict iterates in insertion order). -/
def IPTC_TAGS : List (Int × String) := [
  (5, "Object Name"),
  (7, "Edit Status"),
  (8, "Editorial Update"),
  (10, "Urgency"),
  (12, "Subject Reference"),
  (15, "Category"),
  (20, "Supplemental Category"),
  (22, "Fixture Identifier"),
  (25, "Keywords"),
  (30, "Release Date"),
  (35, "Release Time"),
  (40, "Special Instructions"),
  (45, "Reference Service"),
  (47, "Reference Date"),
  (50, "Reference Number"),
  (55, "Created Date"),
  (60, "Created Time"),
  (65, "Originating Program"),
  (70, "Program Version"),
  (75, "Object Cycle"),
  (80, "Byline"),
  (85, "Byline Title"),
  (90, "City"),
  (92, "Sublocation"),
  (95, "State/Province"),
  (100, "Country Code"),
  (101, "Country Name"),
  (103, "Original Transmission Reference"),
  (105, "Headline"),
  (110, "Credit"),
  (115, "Source"),
  (116, "Copyright Notice"),
  (118, "Contact"),
  (120, "caption"),
  (121, "Local Caption"),
  (122, "Writer/Editor"),
  (130, "Image Type"),
  (131, "Image Orientation"),
  (135, "Language Identifier"),
  (150, "Audio Type"),
  (151, "Audio Sampling Rate"),
  (152, "Audio Sampling Resolution"),
  (153, "Audio Duration"),
  (154, "Audio Outcue"),
  (184, "Job Identifier"),
  (187, "Master Document Identifier"),
  (188, "Short Document Identifier"),
  (189, "Unique Document Identifier"),
  (190, "Owner ID"),
  (221, "Object Preview Data"),
  (225, "Classified Indicator"),
  (230, "Person Shown"),
  (231, "Location Shown"),
  (232, "Organization Shown"),
  (240, "Content Description"),
  (242, "Data Source"),
  (255, "Rasterized Caption")]

/-- Lower-case the characters of a string (Python `str.lower` on ASCII). -/
def lowerChars (s : String) : List Char :=
  s.data.map Char.toLower

/-- The test of one iteration of the `for k, v in IPTC_TAGS.items()` loop
in `get_tag_for_field`: `field.lower() in v.lower()`. -/
def tagMatches (field : String) (kv : Int × String) : Bool :=
  chContains (lowerChars field) (lowerChars kv.2)

/-- `get_tag_for_field`: the code of the first table entry (declaration
order) whose name contains the field case-insensitively; -1 when none
does. -/
def get_tag_for_field (field : String) : Int :=
  match IPTC_TAGS.find? (tagMatches field) with
  | some kv => kv.1
  | none => -1

/-- `info[tag].decode("utf-8")` wrapped in the `try/except` of `get_id`:
an absent info object (subscripting None raises), a failed lookup and
undecodable bytes all degrade to None. -/
def iptc_id (info? : Option Meta) (tag : Int) : Option String :=
  match info? with
  | none => none
  | some m =>
    match m tag with
    | .value s => some s
    | _ => none

/-- `get_id`: in folder mode return the `int(folder_id_idx)`-th segment of
the path split on "/" (absent index: None; a malformed integer or an
out-of-range index raises); in metadata mode match the field against the
tag table (a None field raises from `field.lower()` inside
`get_tag_for_field`), return None when no tag matches, and otherwise read
the tag from the metadata with every failure degrading to None. -/
def get_id (path : String) (info? : Option Meta) (id_field? : Option String)
    (folder_id_idx? : Option String) : Except String (Option String) :=
  if id_field? = some "folder" then
    match folder_id_idx? with
    | none => .ok none
    | some s =>
      match pyInt s with
      | .error m => .error m
      | .ok i =>
        match pyIndex (pySplit '/' path) i with
        | .error m => .error m
        | .ok seg => .ok (some seg)
  else
    match id_field? with
    | none => .error "NoneType object has no attribute lower"
    | some f =>
      if get_tag_for_field f = -1 then .ok none
      else .ok (iptc_id info? (get_tag_for_field f))

/-- The external world of one request: the process environment and the
outcome of each call to an external collaborator.  `download`, `iptc`,
`img`, `respImages`, `decode` and `upload` abstract the blob download,
the iptcinfo3 parse, the PIL decode of the source bytes, the JSON parse
of the detector body, the base64 decode of one detection and the blob
upload; each carries the message of the exception it raises on failure. -/
structure World where
  env : String → Option String
  download : Except String Unit
  iptc : Except String Meta
  img : Except String Unit
  status : Nat
  respImages : Except String (List String)
  decode : String → Except String Unit
  upload : Except String Unit

/-- Result of `get_file`: the returned value (the decoded bitmap is
abstract, the metadata is optional) or the raised exception, plus whether
the transient temporary file was created and whether it was deleted. -/
structure FetchResult where
  result : Except String (Unit × Option Meta)
  tempCreated : Bool
  tempDeleted : Bool

/-- `get_file`: read the connection string (raising when the env-var name
is None — `os.getenv(None)` — or the variable unset or empty), download
the blob, write the bytes to a transient temporary file, best-effort
parse IPTC metadata (a parse failure is swallowed and degrades to no
metadata), decode the bitmap with PIL, then delete the temporary file and
return the bitmap with the metadata.  The flags record that the deletion
only runs after a successful bitmap decode. -/
def get_file (w : World) (_container _path : String) (envVar? : Option String) :
    FetchResult :=
  match envVar? with
  | none => ⟨.error "str expected, not NoneType", false, false⟩
  | some v =>
    if pyFalsy (w.env v) then ⟨.error (v ++ " is not set"), false, false⟩
    else
      match w.download with
      | .error m => ⟨.error m, false, false⟩
      | .ok _ =>
        let info? : Option Meta :=
          match w.iptc with
          | .ok m => some m
          | .error _ => none
        match w.img with
        | .error m => ⟨.error m, true, false⟩
        | .ok _ => ⟨.ok ((), info?), true, true⟩

/-- `detect`: raise when DETECT_ENDPOINT is unset or empty; POST the image
and, on status 200, parse `response.extractedImages` from the JSON body
(a parse failure raises); any other status yields the empty list.  The
image re-serialization and HTTP transport are abstracted into the world's
`status` and `respImages`. -/
def detect (w : World) : Except String (List String) :=
  if pyFalsy (w.env "DETECT_ENDPOINT") then .error "DETECT_ENDPOINT is not set"
  else if w.status = 200 then w.respImages
  else .ok []

/-- The upload loop of `write_output`: for each detection, in order, build
the output path `os.path.join(folder, identifier, stem_cropped_idx.JPG)`
(raising when the folder is None), decode the base64 payload, re-encode
and upload with overwrite.  Returns the outcome (the path list on
success, or the first raised message) paired with the list of paths whose
uploads actually ran before any failure. -/
def write_loop (w : World) (folder? : Option String) (source identifier : String) :
    List String → Nat → Except String (List String) × List String
  | [], _ => (.ok [], [])
  | d :: rest, idx =>
    match folder? with
    | none => (.error "join argument must be str, not NoneType", [])
    | some folder =>
      let base := pyStem (pyBasename source) ++ "_cropped_" ++ toString idx ++ ".JPG"
      let path := pyJoin (pyJoin folder identifier) base
      match w.decode d with
      | .error m => (.error m, [])
      | .ok _ =>
        match w.upload with
        | .error m => (.error m, [])
        | .ok _ =>
          let r := write_loop w folder? source identifier rest (idx + 1)
          ((match r.1 with
            | .ok ps => Except.ok (path :: ps)
            | .error m => Except.error m), path :: r.2)

/-- `write_output`: a None identifier is a silent no-op returning None;
otherwise check the output connection string (raising when the env-var
name is None or the variable unset or empty) and upload one cropped JPEG
per detection, returning the ordered list of paths written.  The second
component of the pair lists the uploads actually performed. -/
def write_output (w : World) (source : String) (envVar? : Option String)
    (_container? folder? : Option String) (detections : List String)
    (identifier? : Option String) :
    Except String (Option (List String)) × List String :=
  match identifier? with
  | none => (.ok none, [])
  | some identifier =>
    match envVar? with
    | none => (.error "str expected, not NoneType", [])
    | some v =>
      if pyFalsy (w.env v) then (.error (v ++ " is not set"), [])
      else
        match write_loop w folder? source identifier detections 0 with
        | (.ok ps, ups) => (.ok (some ps), ups)
        | (.error m, ups) => (.error m, ups)

/-- The query parameters of one request, as `req.params.get` yields them. -/
structure Params where
  container : Option String
  path : Option String
  id_field : Option String
  folder_id_idx : Option String
  con_env_in : Option String
  con_env_out : Option String
  container_out : Option String
  folder_out : Option String

/-- The JSON body of a response: the success payload or an error payload. -/
inductive Body where
  | ok (container path : String) (detections : List String)
      (identifier : Option String) (outputs : Option (List String))
  | err (msg : String)
deriving DecidableEq

/-- An HTTP response: status code plus JSON body. -/
structure Response where
  status : Nat
  body : Body
deriving DecidableEq

/-- The pipeline stages the handler may enter after validation. -/
inductive Step where
  | fetch | detect | getId | write
deriving DecidableEq

/-- `process_file_function`: validate that the required `container` and
`path` parameters are present and non-empty, then run
fetch → detect → identifier resolution → write in sequence; any exception
raised by a stage is caught at this level and becomes a 500 response
carrying the exception's message, and success is a 200 JSON response.
The step list records which stages were entered. -/
def process_file (p : Params) (w : World) : Response × List Step :=
  if pyFalsy p.container || pyFalsy p.path then
    (⟨400, .err "Missing required query parameters. Expected: container, path."⟩, [])
  else
    match (get_file w (p.container.getD "") (p.path.getD "") p.con_env_in).result with
    | .error m => (⟨500, .err m⟩, [.fetch])
    | .ok (_, info?) =>
      match detect w with
      | .error m => (⟨500, .err m⟩, [.fetch, .detect])
      | .ok detections =>
        match get_id (p.path.getD "") info? p.id_field p.folder_id_idx with
        | .error m => (⟨500, .err m⟩, [.fetch, .detect, .getId])
        | .ok identifier? =>
          match write_output w (p.path.getD "") p.con_env_out p.container_out
              p.folder_out detections identifier? with
          | (.error m, _) => (⟨500, .err m⟩, [.fetch, .detect, .getId, .write])
          | (.ok outputs?, _) =>
            (⟨200, .ok (p.container.getD "") (p.path.getD "") detections
                identifier? outputs?⟩,
              [.fetch, .detect, .getId, .write])

/-- A world in which every environment variable is set, every external
call succeeds, and the detector answers 200 with no detections. -/
def okWorld : World where
  env := fun _ => some "cs"
  download := .ok ()
  iptc := .ok fun _ => .missing
  img := .ok ()
  status := 200
  respImages := .ok []
  decode := fun _ => .ok ()
  upload := .ok ()

/-- A world whose detector answers 404. -/
def notFoundWorld : World := { okWorld with status := 404 }

/-- A world whose source blob bytes PIL cannot decode. -/
def badImgWorld : World := { okWorld with img := .error "cannot identify image file" }

/-- A world whose IPTC metadata parse raises. -/
def badIptcWorld : World := { okWorld with iptc := .error "iptc parse failed" }

/-- A world in which only the input connection string variable is set. -/
def envInOnlyWorld : World :=
  { okWorld with env := fun n => if n = "IN_CONN" then some "cs" else none }

/-- A fully populated request. -/
def fullParams : Params where
  container := some "in"
  path := some "photos/a.jpg"
  id_field := some "folder"
  folder_id_idx := some "0"
  con_env_in := some "IN_CONN"
  con_env_out := some "OUT_CONN"
  container_out := some "out"
  folder_out := some "crops"

/-- A request missing the required `path` parameter. -/
def noPathParams : Params := { fullParams with path := none }

/-- A request with no `id_field` parameter. -/
def noFieldParams : Params := { fullParams with id_field := none }

/-! ### Helper lemmas -/

lemma data_ne_nil {a : String} (h : a ≠ "") : a.data ≠ [] := by
  intro hd
  apply h
  cases a with
  | mk l => cases hd; rfl

lemma append_ne_empty_left {a : String} (b : String) (h : a ≠ "") : a ++ b ≠ "" := by
  intro he
  have hd : (a ++ b).data = [] := by rw [he]
  rw [String.data_append] at hd
  exact data_ne_nil h (List.append_eq_nil.mp hd).1

lemma append_ne_empty_right {b : String} (a : String) (h : b ≠ "") : a ++ b ≠ "" := by
  intro he
  have hd : (a ++ b).data = [] := by rw [he]
  rw [String.data_append] at hd
  exact data_ne_nil h (List.append_eq_nil.mp hd).2

lemma strStartsSlash_append_left {a : String} (b : String) (h : a ≠ "") :
    strStartsSlash (a ++ b) = strStartsSlash a := by
  obtain ⟨c, cs, hcc⟩ := List.exists_cons_of_ne_nil (data_ne_nil h)
  unfold strStartsSlash
  rw [String.data_append, hcc]
  rfl

lemma strEndsSlash_append {b : String} (a : String) (h : b ≠ "") :
    strEndsSlash (a ++ b) = strEndsSlash b := by
  have hd := data_ne_nil h
  unfold strEndsSlash
  rw [String.data_append, List.getLast?_append_of_ne_nil _ hd]

lemma find?_take {α : Type} (p : α → Bool) :
    ∀ (l : List α) (i : Nat) (h : i < l.length),
      p (l.get ⟨i, h⟩) = true → (∀ x ∈ l.take i, p x = false) →
      l.find? p = some (l.get ⟨i, h⟩) := by
  intro l
  induction l with
  | nil => intro i h; simp at h
  | cons a t ih =>
    intro i h hp hb
    cases i with
    | zero =>
      simp only [List.get] at hp
      simp [List.find?_cons, hp]
    | succ n =>
      have ha : p a = false := hb a (by simp)
      have hp' : p (t.get ⟨n, by simpa using h⟩) = true := hp
      have hb' : ∀ x ∈ t.take n, p x = false := fun x hx =>
        hb x (List.mem_cons_of_mem _ hx)
      simp only [List.find?_cons, ha]
      exact ih n (by simpa using h) hp' hb'

lemma getD_eq_get (l : List String) (n : Nat) (h : n < l.length) :
    l.getD n "" = l.get ⟨n, h⟩ := by
  induction l generalizing n with
  | nil => simp at h
  | cons a t ih =>
    cases n with
    | zero => rfl
    | succ k => exact ih k (by simpa using h)

lemma pyIndex_nonneg (l : List String) (i : Int) (h0 : 0 ≤ i)
    (h1 : i < (l.length : Int)) :
    pyIndex l i = .ok (l.get ⟨i.toNat, by omega⟩) := by
  simp only [pyIndex]
  rw [if_neg (by omega : ¬ i < 0)]
  rw [if_pos ⟨h0, h1⟩]
  exact congrArg Except.ok (getD_eq_get l i.toNat (by omega))

lemma pyIndex_neg (l : List String) (i : Int) (h0 : -(l.length : Int) ≤ i)
    (h1 : i < 0) :
    pyIndex l i = .ok (l.get ⟨(i + l.length).toNat, by omega⟩) := by
  simp only [pyIndex]
  rw [if_pos h1]
  rw [if_pos ⟨by omega, by omega⟩]
  exact congrArg Except.ok (getD_eq_get l (i + l.length).toNat (by omega))

lemma pyIndex_oob (l : List String) (i : Int)
    (h : (l.length : Int) ≤ i ∨ i < -(l.length : Int)) :
    pyIndex l i = .error "list index out of range" := by
  simp only [pyIndex]
  by_cases h1 : i < 0
  · rw [if_pos h1, if_neg (by omega)]
  · rw [if_neg h1, if_neg (by omega)]

/-! ### Claim theorems -/

/-- C3: the spec requires the transient metadata file to be deleted on
every exit path of the Fetcher.  The code deletes it after a successful
bitmap decode and also when the metadata parse fails, but when the bitmap
decode itself raises, `get_file` propagates the exception with the file
still on disk: the claim is right and the code leaks the file on that
path. -/
theorem C3_thm :
    (get_file badImgWorld "in" "photos/a.jpg" (some "IN_CONN")).tempCreated = true
  ∧ (get_file badImgWorld "in" "photos/a.jpg" (some "IN_CONN")).tempDeleted = false
  ∧ (get_file badImgWorld "in" "photos/a.jpg" (some "IN_CONN")).result
      = .error "cannot identify image file"
  ∧ (get_file badIptcWorld "in" "photos/a.jpg" (some "IN_CONN")).tempCreated = true
  ∧ (get_file badIptcWorld "in" "photos/a.jpg" (some "IN_CONN")).tempDeleted = true :=
  ⟨rfl, rfl, rfl, rfl, rfl⟩

/-- C4: `get_tag_for_field` returns the tag code of the first entry of
`IPTC_TAGS`, in declaration order, whose name contains the field
case-insensitively, and -1 when no entry matches. -/
theorem C4_thm (f : String) :
    ((∀ kv ∈ IPTC_TAGS, tagMatches f kv = false) → get_tag_for_field f = -1)
  ∧ (∀ (i : Nat) (h : i < IPTC_TAGS.length),
      tagMatches f (IPTC_TAGS.get ⟨i, h⟩) = true →
      (∀ kv ∈ IPTC_TAGS.take i, tagMatches f kv = false) →
      get_tag_for_field f = (IPTC_TAGS.get ⟨i, h⟩).1) := by
  constructor
  · intro hall
    unfold get_tag_for_field
    rw [List.find?_eq_none.mpr fun x hx => by simp [hall x hx]]
  · intro i h hp hb
    unfold get_tag_for_field
    rw [find?_take (tagMatches f) IPTC_TAGS i h hp hb]

theorem C4_witness : get_tag_for_field "object name" = 5 := by
  have h := (C4_thm "object name").2 0 (by decide) (by decide) (by simp)
  exact h.trans (by decide)

/-- C5: in metadata mode, an absent metadata mapping, a failed lookup of
the matched tag, and bytes that do not decode as UTF-8 all make `get_id`
return no identifier instead of propagating an error. -/
theorem C5_thm (p f : String) (fidx? : Option String) (m : Meta)
    (hf : f ≠ "folder") :
    get_id p none (some f) fidx? = .ok none
  ∧ (m (get_tag_for_field f) = .missing →
      get_id p (some m) (some f) fidx? = .ok none)
  ∧ (m (get_tag_for_field f) = .undecodable →
      get_id p (some m) (some f) fidx? = .ok none) := by
  by_cases htag : get_tag_for_field f = -1
  · exact ⟨by simp [get_id, hf, htag], fun _ => by simp [get_id, hf, htag],
      fun _ => by simp [get_id, hf, htag]⟩
  · refine ⟨by simp [get_id, hf, htag, iptc_id], fun hm => ?_, fun hm => ?_⟩ <;>
      simp [get_id, hf, htag, iptc_id, hm]

theorem C5_witness :
    get_id "photos/a.jpg" (some fun _ => TagVal.missing) (some "headline") none
      = .ok none :=
  (C5_thm "photos/a.jpg" "headline" none (fun _ => TagVal.missing)
    (by decide)).2.1 rfl

/-- C6: once DETECT_ENDPOINT is present, any non-200 detector response
makes `detect` return the empty list, and a 200 response whose body
parses to `response.extractedImages` makes it return exactly that list. -/
theorem C6_thm (w : World)
    (he : pyFalsy (w.env "DETECT_ENDPOINT") = false) :
    (w.status ≠ 200 → detect w = .ok [])
  ∧ (∀ l, w.status = 200 → w.respImages = .ok l → detect w = .ok l) := by
  constructor
  · intro hs; simp [detect, he, hs]
  · intro l hs hr; simp [detect, he, hs, hr]

theorem C6_witness : detect notFoundWorld = .ok [] :=
  (C6_thm notFoundWorld (by decide)).1 (by decide)

/-- C7: with an absent identifier the Writer performs zero uploads and
returns nothing (Python None), whatever the detection list and the rest
of the environment. -/
theorem C7_thm (w : World) (source : String) (env? c? f? : Option String)
    (detections : List String) :
    write_output w source env? c? f? detections none = (.ok none, []) := rfl

/-- C1 holds for the in-range and no-index cases but fails on the
out-of-range boundary: with path "a/b" and index 5, `get_id` raises an
IndexError instead of returning nothing. -/
theorem C1_counterexample :
    get_id "a/b" none (some "folder") (some "5")
      = .error "list index out of range"
  ∧ get_id "a/b" none (some "folder") (some "5") ≠ .ok none :=
  ⟨by decide, by decide⟩

/-- C1 (amended): in folder mode `get_id` returns `p.split("/")[i]` for
every in-range index `i` (Python semantics, negative indices counting
from the end), returns nothing when the index is absent, and raises an
IndexError when `i` is out of range of the split segments. -/
theorem C1_thm (p s : String) (i : Int) (info? : Option Meta)
    (hs : pyInt s = .ok i) :
    (get_id p info? (some "folder") none = .ok none)
  ∧ (∀ h : 0 ≤ i ∧ i < ((pySplit '/' p).length : Int),
      get_id p info? (some "folder") (some s)
        = .ok (some ((pySplit '/' p).get ⟨i.toNat, by omega⟩)))
  ∧ (∀ h : -((pySplit '/' p).length : Int) ≤ i ∧ i < 0,
      get_id p info? (some "folder") (some s)
        = .ok (some ((pySplit '/' p).get
            ⟨(i + (pySplit '/' p).length).toNat, by omega⟩)))
  ∧ ((((pySplit '/' p).length : Int) ≤ i ∨ i < -((pySplit '/' p).length : Int)) →
      get_id p info? (some "folder") (some s)
        = .error "list index out of range") := by
  have hfold : get_id p info? (some "folder") (some s)
      = match pyIndex (pySplit '/' p) i with
        | .error m => .error m
        | .ok seg => .ok (some seg) := by
    simp [get_id, hs]
  refine ⟨by simp [get_id], ?_, ?_, ?_⟩
  · intro h
    rw [hfold, pyIndex_nonneg _ _ h.1 h.2]
  · intro h
    rw [hfold, pyIndex_neg _ _ h.1 h.2]
  · intro h
    rw [hfold, pyIndex_oob _ _ h]

theorem C1_witness :
    get_id "a/b" none (some "folder") (some "1") = .ok (some "b") := by
  have h := (C1_thm "a/b" "1" 1 none (by decide)).2.1 ⟨by decide, by decide⟩
  exact h.trans (by decide)

lemma out_path_eq (folder identifier source : String) (k : Nat)
    (hf0 : folder ≠ "") (hf1 : strEndsSlash folder = false)
    (hi0 : identifier ≠ "") (hi1 : strStartsSlash identifier = false)
    (hi2 : strEndsSlash identifier = false)
    (hb : strStartsSlash (pyStem (pyBasename source)) = false) :
    pyJoin (pyJoin folder identifier)
        (pyStem (pyBasename source) ++ "_cropped_" ++ toString k ++ ".JPG")
      = folder ++ "/" ++ identifier ++ "/" ++ pyStem (pyBasename source)
          ++ "_cropped_" ++ toString k ++ ".JPG" := by
  have h1 : pyJoin folder identifier = folder ++ "/" ++ identifier := by
    unfold pyJoin
    rw [if_neg (by simp [hi1]), if_neg (by simp [hf0, hf1])]
  have hA_ne : folder ++ "/" ++ identifier ≠ "" :=
    append_ne_empty_right _ hi0
  have hA_slash : strEndsSlash (folder ++ "/" ++ identifier) = false := by
    rw [strEndsSlash_append _ hi0]
    exact hi2
  have hbase : strStartsSlash (pyStem (pyBasename source) ++ "_cropped_"
      ++ toString k ++ ".JPG") = false := by
    by_cases hst : pyStem (pyBasename source) = ""
    · rw [hst]
      have e : ("" : String) ++ "_cropped_" = "_cropped_" := rfl
      rw [e, strStartsSlash_append_left _ (append_ne_empty_left _ (by decide)),
        strStartsSlash_append_left _ (by decide)]
      rfl
    · rw [strStartsSlash_append_left _
          (append_ne_empty_left _ (append_ne_empty_left _ hst)),
        strStartsSlash_append_left _ (append_ne_empty_left _ hst),
        strStartsSlash_append_left _ hst]
      exact hb
  rw [h1]
  unfold pyJoin
  rw [if_neg (by simp [hbase]), if_neg (by simp [hA_ne, hA_slash])]
  simp [String.append_assoc]

lemma write_loop_ok (w : World) (folder source identifier : String)
    (hup : w.upload = .ok ()) :
    ∀ (l : List String) (idx : Nat), (∀ d ∈ l, w.decode d = .ok ()) →
      write_loop w (some folder) source identifier l idx =
        (Except.ok ((List.range' idx l.length).map fun k =>
            pyJoin (pyJoin folder identifier)
              (pyStem (pyBasename source) ++ "_cropped_" ++ toString k ++ ".JPG")),
         (List.range' idx l.length).map fun k =>
            pyJoin (pyJoin folder identifier)
              (pyStem (pyBasename source) ++ "_cropped_" ++ toString k ++ ".JPG")) := by
  intro l
  induction l with
  | nil => intro idx _; rfl
  | cons d rest ih =>
    intro idx hd
    have hdec : w.decode d = .ok () := hd d (List.mem_cons_self _ _)
    have hrest := ih (idx + 1) fun x hx => hd x (List.mem_cons_of_mem _ hx)
    simp only [write_loop, hdec, hup, hrest]
    rfl

/-- C2 fails as stated: the file name component is not
`basename(source)` but the basename truncated at its first "." — on
source "photos/a.jpg" the path written is "crops/id/a_cropped_0.JPG",
not "crops/id/a.jpg_cropped_0.JPG". -/
theorem C2_counterexample :
    (write_output okWorld "photos/a.jpg" (some "OUT_CONN") (some "out")
        (some "crops") ["d0"] (some "id")).1
      = .ok (some ["crops/id/a_cropped_0.JPG"])
  ∧ "crops/id/a_cropped_0.JPG" ≠ "crops/id/a.jpg_cropped_0.JPG" :=
  ⟨by decide, by decide⟩

/-- C2 (amended): with an identifier present, the Writer uploads one
object per detection in received order (0-indexed) and returns exactly
the ordered list of paths
`{folder}/{identifier}/{stem}_cropped_{index}.JPG`, where `stem` is
`basename(source)` truncated at its first "." — the list of uploads
performed equals the list returned, and the embedding is a pure function
of its inputs, so re-running yields the same paths.  (The slash
hypotheses pin down the plain-concatenation reading of `os.path.join`.) -/
theorem C2_thm (w : World) (source folder identifier v : String)
    (container? : Option String) (detections : List String)
    (henv : pyFalsy (w.env v) = false)
    (hup : w.upload = .ok ())
    (hdec : ∀ d ∈ detections, w.decode d = .ok ())
    (hf0 : folder ≠ "") (hf1 : strEndsSlash folder = false)
    (hi0 : identifier ≠ "") (hi1 : strStartsSlash identifier = false)
    (hi2 : strEndsSlash identifier = false)
    (hb : strStartsSlash (pyStem (pyBasename source)) = false) :
    write_output w source (some v) container? (some folder) detections
        (some identifier)
      = (.ok (some ((List.range detections.length).map fun k =>
            folder ++ "/" ++ identifier ++ "/" ++ pyStem (pyBasename source)
              ++ "_cropped_" ++ toString k ++ ".JPG")),
         (List.range detections.length).map fun k =>
            folder ++ "/" ++ identifier ++ "/" ++ pyStem (pyBasename source)
              ++ "_cropped_" ++ toString k ++ ".JPG") := by
  have hloop := write_loop_ok w folder source identifier hup detections 0 hdec
  have hmap : ((List.range' 0 detections.length).map fun k =>
      pyJoin (pyJoin folder identifier)
        (pyStem (pyBasename source) ++ "_cropped_" ++ toString k ++ ".JPG"))
      = (List.range detections.length).map fun k =>
          folder ++ "/" ++ identifier ++ "/" ++ pyStem (pyBasename source)
            ++ "_cropped_" ++ toString k ++ ".JPG" := by
    rw [← List.range_eq_range' detections.length]
    exact List.map_congr_left fun k _ =>
      out_path_eq folder identifier source k hf0 hf1 hi0 hi1 hi2 hb
  simp only [write_output]
  rw [if_neg (by simp [henv]), hloop, hmap]

theorem C2_witness :
    write_output okWorld "photos/a.jpg" (some "OUT_CONN") (some "out")
        (some "crops") ["d0"] (some "id")
      = (.ok (some ["crops/id/a_cropped_0.JPG"]), ["crops/id/a_cropped_0.JPG"]) := by
  have h := C2_thm okWorld "photos/a.jpg" "crops" "id" "OUT_CONN" (some "out")
    ["d0"] (by decide) (by decide) (by decide) (by decide) (by decide)
    (by decide) (by decide) (by decide) (by decide)
  exact h.trans (by decide)

/-- C8: whenever `container` or `path` is missing (or empty, which Python
truthiness also treats as missing), the handler answers 400 with an error
message that names both required parameters, and enters none of the
fetch/detect/identifier/write stages. -/
theorem C8_thm (p : Params) (w : World)
    (h : pyFalsy p.container = true ∨ pyFalsy p.path = true) :
    process_file p w
      = (⟨400, .err "Missing required query parameters. Expected: container, path."⟩,
          [])
  ∧ pyIn "container"
      "Missing required query parameters. Expected: container, path." = true
  ∧ pyIn "path"
      "Missing required query parameters. Expected: container, path." = true := by
  refine ⟨?_, by decide, by decide⟩
  rcases h with h | h <;> simp [process_file, h]

theorem C8_witness :
    process_file noPathParams okWorld
      = (⟨400, .err "Missing required query parameters. Expected: container, path."⟩,
          []) :=
  (C8_thm noPathParams okWorld (Or.inr (by decide))).1

/-- C9: an exception raised by any stage — fetch, detection, identifier
resolution or writing — is caught at the top level and becomes a 500
response whose error field is the exception's message; in particular,
with DETECT_ENDPOINT unset the 500 error text states the missing
variable. -/
theorem C9_thm (p : Params) (w : World)
    (hc : pyFalsy p.container = false) (hp : pyFalsy p.path = false) :
    (∀ m, (get_file w (p.container.getD "") (p.path.getD "") p.con_env_in).result
          = .error m →
        process_file p w = (⟨500, .err m⟩, [.fetch]))
  ∧ (∀ m info?,
      (get_file w (p.container.getD "") (p.path.getD "") p.con_env_in).result
          = .ok ((), info?) →
      detect w = .error m →
        process_file p w = (⟨500, .err m⟩, [.fetch, .detect]))
  ∧ (∀ m info? dets,
      (get_file w (p.container.getD "") (p.path.getD "") p.con_env_in).result
          = .ok ((), info?) →
      detect w = .ok dets →
      get_id (p.path.getD "") info? p.id_field p.folder_id_idx = .error m →
        process_file p w = (⟨500, .err m⟩, [.fetch, .detect, .getId]))
  ∧ (∀ m info? dets id? ups,
      (get_file w (p.container.getD "") (p.path.getD "") p.con_env_in).result
          = .ok ((), info?) →
      detect w = .ok dets →
      get_id (p.path.getD "") info? p.id_field p.folder_id_idx = .ok id? →
      write_output w (p.path.getD "") p.con_env_out p.container_out p.folder_out
          dets id? = (.error m, ups) →
        process_file p w = (⟨500, .err m⟩, [.fetch, .detect, .getId, .write]))
  ∧ (∀ info?, w.env "DETECT_ENDPOINT" = none →
      (get_file w (p.container.getD "") (p.path.getD "") p.con_env_in).result
          = .ok ((), info?) →
        process_file p w
          = (⟨500, .err "DETECT_ENDPOINT is not set"⟩, [.fetch, .detect])) := by
  refine ⟨?_, ?_, ?_, ?_, ?_⟩
  · intro m hm
    simp [process_file, hc, hp, hm]
  · intro m info? hf hm
    simp [process_file, hc, hp, hf, hm]
  · intro m info? dets hf hdet hm
    simp [process_file, hc, hp, hf, hdet, hm]
  · intro m info? dets id? ups hf hdet hid hm
    simp [process_file, hc, hp, hf, hdet, hid, hm]
  · intro info? henv hf
    have hd : detect w = .error "DETECT_ENDPOINT is not set" := by
      simp [detect, henv, pyFalsy]
    simp [process_file, hc, hp, hf, hd]

theorem C9_witness :
    process_file fullParams envInOnlyWorld
      = (⟨500, .err "DETECT_ENDPOINT is not set"⟩, [Step.fetch, Step.detect]) :=
  (C9_thm fullParams envInOnlyWorld (by decide) (by decide)).2.2.2.2
    (some fun _ => TagVal.missing) (by decide) rfl

/-- C10: with the `id_field` parameter omitted, `get_id` does not return
"no identifier": the None field reaches `field.lower()` and raises, and
the otherwise-valid request surfaces as a 500 error. -/
theorem C10_thm (p : Params) (w : World) (info? : Option Meta)
    (dets : List String)
    (hc : pyFalsy p.container = false) (hp : pyFalsy p.path = false)
    (hid : p.id_field = none)
    (hfetch : (get_file w (p.container.getD "") (p.path.getD "") p.con_env_in).result
        = .ok ((), info?))
    (hdet : detect w = .ok dets) :
    get_id (p.path.getD "") info? p.id_field p.folder_id_idx
      = .error "NoneType object has no attribute lower"
  ∧ process_file p w
      = (⟨500, .err "NoneType object has no attribute lower"⟩,
          [.fetch, .detect, .getId]) := by
  have h1 : get_id (p.path.getD "") info? p.id_field p.folder_id_idx
      = .error "NoneType object has no attribute lower" := by
    simp [get_id, hid]
  exact ⟨h1, by simp [process_file, hc, hp, hfetch, hdet, h1]⟩

theorem C10_witness :
    process_file noFieldParams okWorld
      = (⟨500, .err "NoneType object has no attribute lower"⟩,
          [Step.fetch, Step.detect, Step.getId]) :=
  (C10_thm noFieldParams okWorld (some fun _ => TagVal.missing) []
    (by decide) (by decide) rfl rfl rfl).2

end AzureFin
